import Mathlib

/-!
Verification of the `xrpl_websocket` client (`src/xrpl_websocket/client.py`)
against its natural-language specification.

The embedding is a shallow one: the fields of the Python `Client` object that
the verified claims touch are collected in a `ClientState` record, and each
relevant method of the class becomes a pure Lean function from state to state
(plus explicit outputs for raised exceptions, emitted callbacks and returned
values).  Python `threading.Event` objects become `Bool` flags; the
`multiprocessing.Queue` shared by all `send` callers becomes a FIFO `List`;
the `responseEvents` dictionary becomes the pair of a key set (`pending`) and
an association list from request id to the set-state of the per-request event
(`flags`) — the two parts are separate because `dict.pop` removes the key
while the waiting caller keeps its reference to the popped `Event` object.
JSON values occurring in wire messages are modelled by `PyValue` (the claims
only involve scalar field values); a decoded message is an association list
of fields in insertion order, matching Python dict semantics for the
operations the code performs (`get`, `in`, item assignment appends a new key).
-/

namespace Xrpl

/-- Scalar Python values appearing as fields of wire messages.  `none` is
Python's `None`. -/
inductive PyValue where
  | none
  | bool (b : Bool)
  | int (n : Int)
  | str (s : String)
deriving DecidableEq, Repr

/-- A decoded JSON object (Python `dict`) as an association list in insertion
order. -/
abbrev Obj := List (String × PyValue)

/-- `d.get(key)` on a Python dict: `Option.none` models an absent key. -/
def Obj.get : Obj → String → Option PyValue
  | [], _ => Option.none
  | (k, v) :: rest, key => if k = key then some v else Obj.get rest key

/-- `d.get(key)` with Python's default of `None` for an absent key, as used
for `data.get('id')` and `_payload.get('id')`. -/
def Obj.getPy (o : Obj) (key : String) : PyValue :=
  (Obj.get o key).getD PyValue.none

/-- `key in d` on a Python dict. -/
def hasKey : Obj → String → Bool
  | [], _ => false
  | (k, _) :: rest, key => if k = key then true else hasKey rest key

/-- Python truthiness of the scalar values we model (`if not data.get('id')`). -/
def pyTruthy : PyValue → Bool
  | .none => false
  | .bool b => b
  | .int n => n != 0
  | .str s => !(s == "")

/-- Truthiness of a `d.get(k)` result: an absent key yields `None`, which is
falsy. -/
def pyOptTruthy : Option PyValue → Bool
  | Option.none => false
  | some v => pyTruthy v

/-- Association-list lookup keyed by request id (a `PyValue`, since request
ids are whatever the caller put under `'id'`). -/
def alookup {β : Type} : List (PyValue × β) → PyValue → Option β
  | [], _ => Option.none
  | (k, v) :: rest, key => if k = key then some v else alookup rest key

/-- Association-list update: replaces the value at the first matching key,
no-op when the key is absent. -/
def aset {β : Type} : List (PyValue × β) → PyValue → β → List (PyValue × β)
  | [], _, _ => []
  | (k, v) :: rest, key, val =>
    if k = key then (k, val) :: rest else (k, v) :: aset rest key val

/-- Removal of the first occurrence of a key, modelling `dict.pop` on the
key set of `responseEvents`. -/
def eraseKey : List PyValue → PyValue → List PyValue
  | [], _ => []
  | k :: rest, key => if k = key then rest else k :: eraseKey rest key

/-- The possible fates of a `Client.send` call.  `returned` is the normal
return of a response dict; `returnedNone` is Python's implicit `return None`
when the wait loop exits after dequeuing a non-matching response;
`timeout` is `raise TimeoutError`; `blockedOnQueue` marks a `q.get(1)` on an
empty queue (a blocking call, never reached in the schedules considered);
`notConnected` would be a raised `NotConnectedError` — the exception class
exists in `exceptions.py` but `client.py` never raises it, so no function
below ever produces this outcome; the constructor exists so that the spec's
claim about it can be stated. -/
inductive SendOutcome where
  | returned (resp : Obj)
  | returnedNone
  | timeout
  | blockedOnQueue
  | notConnected
deriving DecidableEq, Repr

/-- Bookkeeping for a foreground thread blocked inside `Client.send`:
still waiting on its event, or finished with some outcome. -/
inductive CallerStatus where
  | waiting
  | finished (o : SendOutcome)
deriving DecidableEq, Repr

/-- The fields of the Python `Client` object that the verified claims
mention.  `pending` is the key set of the `responseEvents` dict; `flags`
records, for every `Event` ever stored there, whether `event.set()` has been
called (keyed by request id — ids are assumed distinct across in-flight
requests, as the spec requires); `q` is the shared `multiprocessing.Queue`;
`callers` tracks each foreground `send` caller's fate (bookkeeping for the
blocked threads, not a field of the Python object). -/
structure ClientState where
  pending : List PyValue
  flags : List (PyValue × Bool)
  q : List Obj
  callers : List (PyValue × CallerStatus)
  pong_received : Bool
  pongTimerArmed : Bool
  timersRunning : Bool
  disconnect_called : Bool
  reconnect_required : Bool
  connected : Bool
  socketOpen : Bool
  ledgerVersion : PyValue
  fee_base : PyValue
  fee_ref : PyValue
deriving DecidableEq, Repr

/-- The state right after `Client.__init__`: empty registry and queue, all
events cleared, ledger fields `None`. -/
def initialState : ClientState :=
  { pending := [], flags := [], q := [], callers := [],
    pong_received := false, pongTimerArmed := false, timersRunning := false,
    disconnect_called := false, reconnect_required := false,
    connected := false, socketOpen := false,
    ledgerVersion := PyValue.none, fee_base := PyValue.none,
    fee_ref := PyValue.none }

/-- The set-state of the per-request event for id `cid` (`event.is_set()`);
`false` when no such event exists. -/
def flagOf (s : ClientState) (cid : PyValue) : Bool :=
  (alookup s.flags cid).getD false

/-- Lines 323-324 of `Client.send`: `event = Event();
self.responseEvents[_payload.get('id')] = event`.  A fresh unset event is
stored under the request id; item assignment on the dict keeps the key set
free of duplicates, and a fresh flag entry shadows any older one. -/
def registerEvent (cid : PyValue) (s : ClientState) : ClientState :=
  { s with
    pending := if cid ∈ s.pending then s.pending else cid :: s.pending,
    flags := (cid, false) :: s.flags,
    callers := (cid, CallerStatus.waiting) :: s.callers }

/-- `Client._response_handler` (lines 423-432):
`event = self.responseEvents.pop(data.get('id'), None); if event:
self.q.put(data); event.set()`.  When the id has no registered event the
response is dropped and the state is unchanged. -/
def response_handler (s : ClientState) (data : Obj) : ClientState :=
  let key := Obj.getPy data "id"
  if key ∈ s.pending then
    { s with
      pending := eraseKey s.pending key,
      q := s.q ++ [data],
      flags := aset s.flags key true }
  else s

/-- `Client._pong_handler` (lines 364-372): `self.pong_received = True`. -/
def pong_handler (s : ClientState) : ClientState :=
  { s with pong_received := true }

/-- One iteration of the wait loop of `Client.send` (lines 326-333), for a
caller already blocked in `event.wait(self.response_timeout)`:

* if the caller's event has been set, `wait` returns `True` and the body runs
  `resp = self.q.get(1)`; a matching `resp['id']` returns `resp`, otherwise
  the `while not event.is_set()` re-check sees a set event, the loop exits
  and the function falls through, returning `None`;
* if the event is still unset when the deadline elapses (no delivery occurs
  during the wait in the schedule considered), `wait` returns `False` and
  `raise TimeoutError` fires — note that nothing removes the id from
  `responseEvents` on this path.

The caller's fate is recorded in the `callers` bookkeeping map. -/
def sendWaitOnce (cid : PyValue) (s : ClientState) : SendOutcome × ClientState :=
  if flagOf s cid then
    match s.q with
    | [] => (SendOutcome.blockedOnQueue, s)
    | resp :: rest =>
      if Obj.getPy resp "id" = cid then
        (SendOutcome.returned resp,
         { s with
           q := rest,
           callers := aset s.callers cid (CallerStatus.finished (SendOutcome.returned resp)) })
      else
        (SendOutcome.returnedNone,
         { s with
           q := rest,
           callers := aset s.callers cid (CallerStatus.finished SendOutcome.returnedNone) })
  else
    (SendOutcome.timeout,
     { s with callers := aset s.callers cid (CallerStatus.finished SendOutcome.timeout) })

/-- Lines 307-310 of `Client.send`: `if payload: _payload = payload
else: _payload = kwargs`.  Python dict truthiness makes an empty payload
dict falsy, so for `send({})` the caller's dict is discarded and `_payload`
is bound to the kwargs dict instead; only when the payload dict is
non-empty is `_payload` an alias of the caller's own dict.  The second
component records that aliasing: the id injection below is a
caller-visible in-place mutation exactly when it is `true`. -/
def selectPayload (payload : Obj) (kwargs : Obj) : Obj × Bool :=
  if payload = [] then (kwargs, false) else (payload, true)

/-- Lines 312-313 of `Client.send`, applied to the selected `_payload`:
`if not 'id' in _payload: _payload['id'] = str(uuid.uuid4())` — assignment
of a new key appends it in insertion order. -/
def preparePayload (payload : Obj) (freshId : String) : Obj :=
  if hasKey payload "id" then payload
  else payload ++ [("id", PyValue.str freshId)]

/-- Lines 312-324 of `Client.send`, applied to the already-selected
`_payload`: id injection, the transmission attempt,
and registration of the pending event.  When the socket is closed,
`socket.send` raises `WebSocketConnectionClosedException`, which the code
catches and merely logs — no `NotConnectedError` is raised — and execution
falls through to the registration.  The first component is the transmitted
frame (`Option.none` when transmission failed). -/
def sendRegister (connected : Bool) (payload : Obj) (freshId : String)
    (s : ClientState) : Option Obj × ClientState :=
  let p := preparePayload payload freshId
  let transmitted := if connected then some p else Option.none
  (transmitted, registerEvent (Obj.getPy p "id") s)

/-- `Client.reconnect` (lines 118-129): clear `connected`, set
`reconnect_required`, close the socket if any. -/
def reconnect (s : ClientState) : ClientState :=
  let s1 := { s with connected := false, reconnect_required := true }
  if s1.socketOpen then { s1 with socketOpen := false } else s1

/-- `Client._stop_timers` (lines 237-251): cancels the ping, connection and
pong timers. -/
def stopTimers (s : ClientState) : ClientState :=
  { s with timersRunning := false, pongTimerArmed := false }

/-- `Client._start_timers` (lines 253-269): stops all timers (including the
pong timer) and restarts the ping and connection timers. -/
def startTimers (s : ClientState) : ClientState :=
  { s with timersRunning := true, pongTimerArmed := false }

/-- `Client.disconnect` (lines 101-116): `self.reconnect_required.clear();
self.disconnect_called.set()`, close the socket if any, stop all timers
(the `join` has no state effect). -/
def disconnect (s : ClientState) : ClientState :=
  let s1 := { s with reconnect_required := false, disconnect_called := true }
  let s2 := if s1.socketOpen then { s1 with socketOpen := false } else s1
  stopTimers s2

/-- `Client.send_ping` (lines 271-280): transmit the ping frame and arm the
pong-deadline timer. -/
def send_ping (s : ClientState) : ClientState :=
  { s with pongTimerArmed := true }

/-- `Client._check_pong` (lines 282-296): cancel the pong timer; if a pong
was received since the ping, clear the flag; otherwise call
`self.reconnect()`.  The second component counts the `reconnect()`
invocations this firing performs. -/
def check_pong (s : ClientState) : ClientState × Nat :=
  let s1 := { s with pongTimerArmed := false }
  if s1.pong_received then ({ s1 with pong_received := false }, 0)
  else (reconnect s1, 1)

/-- Classification of one check of the `while self.reconnect_required.is_set()`
loop at the end of `Client._connect` (lines 149-159): `exit` when the guard
is false (the run loop terminates without reopening the transport), `spin`
when the guard holds but `disconnect_called` suppresses the body, and
`reconnectAttempt` when the body sleeps `reconnect_interval` and calls
`run_forever` again. -/
inductive LoopStep where
  | exit
  | spin
  | reconnectAttempt
deriving DecidableEq, Repr

/-- One guard evaluation of the reconnect loop of `Client._connect`. -/
def connectLoopStep (s : ClientState) : LoopStep :=
  if s.reconnect_required = false then LoopStep.exit
  else if s.disconnect_called then LoopStep.spin
  else LoopStep.reconnectAttempt

/-- Exceptions that can escape `Client._data_handler`:
`ResponseFormatError('valid id not found in response', data)` for a response
without a usable id, and the `AttributeError` raised by the error-logging
line (it evaluates `data.error` on a dict). -/
inductive DispatchErr where
  | responseFormat (data : Obj)
  | attributeLookup (data : Obj)
deriving DecidableEq, Repr

/-- User callbacks and log calls emitted by the dispatcher; each callback
runs on its own daemon thread via `Client._callback`. -/
inductive Emit where
  | on_transaction (d : Obj)
  | on_validation (d : Obj)
  | on_ledger (d : Obj)
  | on_manifest (d : Obj)
  | logUnhandled (d : Obj)
deriving DecidableEq, Repr

/-- `Client._ledger_handler` (lines 410-421): cache the advisory ledger
fields and emit the `on_ledger` callback. -/
def ledger_handler (s : ClientState) (data : Obj) : ClientState × List Emit :=
  ({ s with
     ledgerVersion := Obj.getPy data "ledger_index",
     fee_base := Obj.getPy data "fee_base",
     fee_ref := Obj.getPy data "fee_ref" },
   [Emit.on_ledger data])

/-- `Client._data_handler` (lines 374-408): classification of a decoded dict
by its `type` field.  A `response` without a truthy id raises
`ResponseFormatError`; id `'ping'` goes to the pong handler; any other id to
the response handler.  The `elif not event or data.get('error')` branch
evaluates `data.error` on a dict and therefore raises `AttributeError`. -/
def data_handler (s : ClientState) (data : Obj) :
    Except DispatchErr (ClientState × List Emit) :=
  let event := Obj.get data "type"
  if event = some (PyValue.str "response") then
    if !pyOptTruthy (Obj.get data "id") then
      Except.error (DispatchErr.responseFormat data)
    else if Obj.get data "id" = some (PyValue.str "ping") then
      Except.ok (pong_handler s, [])
    else
      Except.ok (response_handler s data, [])
  else if event = some (PyValue.str "ledgerClosed") then
    Except.ok (ledger_handler s data)
  else if event = some (PyValue.str "transaction") then
    Except.ok (s, [Emit.on_transaction data])
  else if event = some (PyValue.str "validationReceived") then
    Except.ok (s, [Emit.on_validation data])
  else if event = some (PyValue.str "manifestReceived") then
    Except.ok (s, [Emit.on_manifest data])
  else if !pyOptTruthy event || pyOptTruthy (Obj.get data "error") then
    Except.error (DispatchErr.attributeLookup data)
  else
    Except.ok (s, [Emit.logUnhandled data])

/-- The outcome of `json.loads` on a raw frame, as seen by `_on_message`:
a decode failure, a non-dict JSON value, or a dict. -/
inductive Parsed where
  | malformed
  | nonDict (v : PyValue)
  | dict (d : Obj)
deriving DecidableEq, Repr

/-- `Client._on_message` (lines 170-196): return immediately when
`disconnect_called` is set; silently drop undecodable frames; dispatch dicts
through `_data_handler`; reset the timers afterwards (skipped when the
handler raises, since the exception propagates past `_start_timers`). -/
def on_message (s : ClientState) (msg : Parsed) :
    Except DispatchErr (ClientState × List Emit) :=
  if s.disconnect_called then Except.ok (s, [])
  else
    match msg with
    | Parsed.malformed => Except.ok (s, [])
    | Parsed.nonDict _ => Except.ok (startTimers s, [])
    | Parsed.dict d =>
      match data_handler s d with
      | Except.error e => Except.error e
      | Except.ok (s1, ems) => Except.ok (startTimers s1, ems)

/-- Interleaving points of the concurrent request/response protocol:
a foreground caller registering its event (lines 323-324), the socket thread
delivering a response through `_response_handler`, and a blocked caller
performing one round of the wait loop (woken when its event is set, timing
out when it is not). -/
inductive SysAct where
  | register (cid : PyValue)
  | deliver (resp : Obj)
  | waitRound (cid : PyValue)
deriving Repr

/-- Effect of one interleaving point on the client state. -/
def stepAct (a : SysAct) (s : ClientState) : ClientState :=
  match a with
  | SysAct.register cid => registerEvent cid s
  | SysAct.deliver resp => response_handler s resp
  | SysAct.waitRound cid => (sendWaitOnce cid s).2

/-- A schedule of interleaving points, executed left to right. -/
def runActs (acts : List SysAct) (s : ClientState) : ClientState :=
  List.foldl (fun t a => stepAct a t) s acts

/-- Every caller that has returned a response holds a response whose `id`
field equals its own request id. -/
def ReturnedMatch (s : ClientState) : Prop :=
  ∀ cid r,
    alookup s.callers cid = some (CallerStatus.finished (SendOutcome.returned r)) →
    Obj.getPy r "id" = cid

/-- Concrete wire response for request id `a`, used in the cross-talk
schedule. -/
def respA : Obj :=
  [("type", PyValue.str "response"), ("id", PyValue.str "a"),
   ("result", PyValue.str "ra")]

/-- Concrete wire response for request id `b`, used in the cross-talk
schedule. -/
def respB : Obj :=
  [("type", PyValue.str "response"), ("id", PyValue.str "b"),
   ("result", PyValue.str "rb")]

/-- Concrete wire response for request id `w`. -/
def respW : Obj :=
  [("type", PyValue.str "response"), ("id", PyValue.str "w"),
   ("result", PyValue.str "rw")]

/-- Concrete wire response for request id `x`. -/
def respX : Obj :=
  [("type", PyValue.str "response"), ("id", PyValue.str "x"),
   ("result", PyValue.str "ok")]

/-- Concrete wire response for request id `x` arriving after the sender
already timed out. -/
def lateResp : Obj :=
  [("type", PyValue.str "response"), ("id", PyValue.str "x"),
   ("result", PyValue.str "late")]

/-- The interleaving that exhibits cross-talk between two concurrent `send`
callers `a` and `b`: both register and block, both responses arrive (first
the one for `b`), then each caller wakes and dequeues from the shared
queue. -/
def crossSchedule : List SysAct :=
  [SysAct.register (PyValue.str "a"), SysAct.register (PyValue.str "b"),
   SysAct.deliver respB, SysAct.deliver respA,
   SysAct.waitRound (PyValue.str "a"), SysAct.waitRound (PyValue.str "b")]

/-! ### Helper lemmas about the association-list operations -/

theorem alookup_aset_self {β : Type} (l : List (PyValue × β)) (k : PyValue) (v : β) :
    alookup (aset l k v) k = (alookup l k).map (fun _ => v) := by
  induction l with
  | nil => rfl
  | cons kv rest ih =>
    obtain ⟨k0, v0⟩ := kv
    by_cases h : k0 = k
    · simp [aset, alookup, h]
    · have h1 : aset ((k0, v0) :: rest) k v = (k0, v0) :: aset rest k v := by
        simp [aset, h]
      rw [h1]
      show (if k0 = k then some v0 else alookup (aset rest k v) k)
          = (if k0 = k then some v0 else alookup rest k).map (fun _ => v)
      rw [if_neg h, if_neg h]
      exact ih

theorem alookup_aset_ne {β : Type} (l : List (PyValue × β)) (k c : PyValue) (v : β)
    (h : c ≠ k) : alookup (aset l k v) c = alookup l c := by
  induction l with
  | nil => rfl
  | cons kv rest ih =>
    obtain ⟨k0, v0⟩ := kv
    by_cases h0 : k0 = k
    · have h1 : aset ((k0, v0) :: rest) k v = (k0, v) :: rest := by
        simp [aset, h0]
      rw [h1]
      show (if k0 = c then some v else alookup rest c)
          = (if k0 = c then some v0 else alookup rest c)
      have hkc : k0 ≠ c := by
        rw [h0]
        exact fun hc => h hc.symm
      rw [if_neg hkc, if_neg hkc]
    · have h1 : aset ((k0, v0) :: rest) k v = (k0, v0) :: aset rest k v := by
        simp [aset, h0]
      rw [h1]
      show (if k0 = c then some v0 else alookup (aset rest k v) c)
          = (if k0 = c then some v0 else alookup rest c)
      by_cases h1c : k0 = c
      · rw [if_pos h1c, if_pos h1c]
      · rw [if_neg h1c, if_neg h1c]
        exact ih

theorem response_handler_callers (s : ClientState) (d : Obj) :
    (response_handler s d).callers = s.callers := by
  simp only [response_handler]
  by_cases h : Obj.getPy d "id" ∈ s.pending
  · rw [if_pos h]
  · rw [if_neg h]

theorem get_append_id (p : Obj) (v : PyValue) (hp : hasKey p "id" = false) :
    Obj.get (p ++ [("id", v)]) "id" = some v := by
  induction p with
  | nil => simp [Obj.get]
  | cons kv rest ih =>
    obtain ⟨k, w⟩ := kv
    by_cases h : k = "id"
    · simp [hasKey, h] at hp
    · simp [hasKey, h] at hp
      simp [Obj.get, h, ih hp]

theorem get_append_other (p : Obj) (v : PyValue) (k : String) (hk : k ≠ "id") :
    Obj.get (p ++ [("id", v)]) k = Obj.get p k := by
  induction p with
  | nil =>
    show (if "id" = k then some v else Obj.get [] k) = Obj.get [] k
    rw [if_neg (Ne.symm hk)]
  | cons kv rest ih =>
    obtain ⟨k0, w⟩ := kv
    by_cases h : k0 = k <;> simp [Obj.get, h, ih]

/-- Preservation of `ReturnedMatch` by every interleaving point: the only
step that records a `returned` outcome is the matching branch of the wait
loop, and it is guarded by `resp['id'] == _payload['id']`. -/
theorem stepAct_preserves_ReturnedMatch (a : SysAct) (s : ClientState)
    (h : ReturnedMatch s) : ReturnedMatch (stepAct a s) := by
  cases a with
  | register cid =>
    intro c r hc
    have he : (stepAct (SysAct.register cid) s).callers
        = (cid, CallerStatus.waiting) :: s.callers := rfl
    rw [he] at hc
    show Obj.getPy r "id" = c
    by_cases hck : cid = c
    · rw [show alookup ((cid, CallerStatus.waiting) :: s.callers) c
          = if cid = c then some CallerStatus.waiting else alookup s.callers c from rfl,
        if_pos hck] at hc
      exact absurd (Option.some.inj hc) (fun h2 => CallerStatus.noConfusion h2)
    · rw [show alookup ((cid, CallerStatus.waiting) :: s.callers) c
          = if cid = c then some CallerStatus.waiting else alookup s.callers c from rfl,
        if_neg hck] at hc
      exact h c r hc
  | deliver resp =>
    intro c r hc
    rw [show (stepAct (SysAct.deliver resp) s).callers = s.callers from
      response_handler_callers s resp] at hc
    exact h c r hc
  | waitRound cid =>
    cases hf : flagOf s cid with
    | true =>
      cases hq : s.q with
      | nil =>
        have he : stepAct (SysAct.waitRound cid) s = s := by
          simp [stepAct, sendWaitOnce, hf, hq]
        rw [he]
        exact h
      | cons resp rest =>
        by_cases hid : Obj.getPy resp "id" = cid
        · have he : (stepAct (SysAct.waitRound cid) s).callers
              = aset s.callers cid (CallerStatus.finished (SendOutcome.returned resp)) := by
            simp [stepAct, sendWaitOnce, hf, hq, hid]
          intro c r hc
          rw [he] at hc
          show Obj.getPy r "id" = c
          by_cases hck : c = cid
          · subst hck
            rw [alookup_aset_self] at hc
            cases hl : alookup s.callers c with
            | none =>
              rw [hl] at hc
              exact Option.noConfusion hc
            | some st =>
              rw [hl] at hc
              simp only [Option.map] at hc
              have h2 := Option.some.inj hc
              have h3 := CallerStatus.finished.inj h2
              have h4 := SendOutcome.returned.inj h3
              rw [← h4]
              exact hid
          · rw [alookup_aset_ne _ _ _ _ hck] at hc
            exact h c r hc
        · have he : (stepAct (SysAct.waitRound cid) s).callers
              = aset s.callers cid (CallerStatus.finished SendOutcome.returnedNone) := by
            simp [stepAct, sendWaitOnce, hf, hq, hid]
          intro c r hc
          rw [he] at hc
          show Obj.getPy r "id" = c
          by_cases hck : c = cid
          · subst hck
            rw [alookup_aset_self] at hc
            cases hl : alookup s.callers c with
            | none =>
              rw [hl] at hc
              exact Option.noConfusion hc
            | some st =>
              rw [hl] at hc
              simp only [Option.map] at hc
              have h2 := Option.some.inj hc
              exact absurd (CallerStatus.finished.inj h2)
                (fun h3 => SendOutcome.noConfusion h3)
          · rw [alookup_aset_ne _ _ _ _ hck] at hc
            exact h c r hc
    | false =>
      have he : (stepAct (SysAct.waitRound cid) s).callers
          = aset s.callers cid (CallerStatus.finished SendOutcome.timeout) := by
        simp [stepAct, sendWaitOnce, hf]
      intro c r hc
      rw [he] at hc
      show Obj.getPy r "id" = c
      by_cases hck : c = cid
      · subst hck
        rw [alookup_aset_self] at hc
        cases hl : alookup s.callers c with
        | none =>
          rw [hl] at hc
          exact Option.noConfusion hc
        | some st =>
          rw [hl] at hc
          simp only [Option.map] at hc
          have h2 := Option.some.inj hc
          exact absurd (CallerStatus.finished.inj h2)
            (fun h3 => SendOutcome.noConfusion h3)
      · rw [alookup_aset_ne _ _ _ _ hck] at hc
        exact h c r hc

/-! ### Claims -/

/-- C1 (amended): under any interleaving of registrations, response
deliveries and wait-loop rounds, a `send` caller that has returned a
response holds only the response whose `id` field equals its own request id
— never another caller's payload.  (The stronger half of the original
claim, that every caller whose response was delivered also returns it, is
refuted by `send_crosstalk_counterexample`.) -/
theorem returned_response_always_matches (acts : List SysAct) (s : ClientState)
    (h : ReturnedMatch s) : ReturnedMatch (runActs acts s) := by
  induction acts generalizing s with
  | nil => exact h
  | cons a rest ih => exact ih (stepAct a s) (stepAct_preserves_ReturnedMatch a s h)

theorem returned_response_always_matches_witness :
    ReturnedMatch (runActs [SysAct.register (PyValue.str "w"), SysAct.deliver respW,
      SysAct.waitRound (PyValue.str "w")] initialState) :=
  returned_response_always_matches _ initialState
    (by intro cid r hc; exact Option.noConfusion hc)

/-- C1 (counterexample): two concurrent callers `a` and `b`, with distinct
ids, both have their responses delivered (`respB` then `respA`), yet after
each caller performs its wake-up round both finish with `returnedNone` —
Python's `send` falls out of its wait loop returning `None` — because each
dequeued the other's payload from the shared queue.  The queue ends empty,
so neither matching response can ever be returned; this refutes the claim
that no call returns without its own matching response. -/
theorem send_crosstalk_counterexample :
    alookup (runActs crossSchedule initialState).callers (PyValue.str "a")
        = some (CallerStatus.finished SendOutcome.returnedNone) ∧
    alookup (runActs crossSchedule initialState).callers (PyValue.str "b")
        = some (CallerStatus.finished SendOutcome.returnedNone) ∧
    (runActs crossSchedule initialState).q = [] := by decide

/-- C2 (amended): when transmission fails because the connection is closed,
`Client.send` does not raise `NotConnectedError` — the
`WebSocketConnectionClosedException` is caught and only logged — a
`PendingRequest` is still registered under the payload's id, and the
subsequent wait (with no response ever arriving) ends with `TimeoutError`
after `response_timeout`. -/
theorem send_disconnected_behavior (p : Obj) (u : String) (s : ClientState) :
    (sendRegister false p u s).1 = Option.none ∧
    Obj.getPy (preparePayload p u) "id" ∈ (sendRegister false p u s).2.pending ∧
    (sendWaitOnce (Obj.getPy (preparePayload p u) "id") (sendRegister false p u s).2).1
      = SendOutcome.timeout := by
  refine ⟨rfl, ?_, ?_⟩
  · simp only [sendRegister, registerEvent]
    by_cases h : Obj.getPy (preparePayload p u) "id" ∈ s.pending <;> simp [h]
  · simp [sendRegister, sendWaitOnce, registerEvent, flagOf, alookup]

/-- C2 (counterexample): sending `{command: "server_info"}` on a fresh
client whose transport is down transmits nothing, registers the pending id
`u1` in `responseEvents`, and the call then fails with `TimeoutError`, not
with `NotConnectedError` — refuting the claim that the call fails
immediately with `NotConnected` and leaves no `PendingRequest`
registered. -/
theorem send_disconnected_counterexample :
    (sendRegister false [("command", PyValue.str "server_info")] "u1" initialState).1
      = Option.none ∧
    (sendRegister false [("command", PyValue.str "server_info")] "u1" initialState).2.pending
      = [PyValue.str "u1"] ∧
    (sendWaitOnce (PyValue.str "u1")
        (sendRegister false [("command", PyValue.str "server_info")] "u1" initialState).2).1
      = SendOutcome.timeout ∧
    SendOutcome.timeout ≠ SendOutcome.notConnected := by decide

/-- C3 (amended): the dispatcher consumes a `PendingRequest` at most once —
a response whose id has no registry entry leaves the state unchanged — but
the timeout path of `Client.send` does not consume the registry entry: a
wait round on a never-set event raises `TimeoutError` and leaves `pending`,
`flags` and the queue exactly as they were, so a response arriving later
with the same id still finds the stale entry, removes it, and enqueues its
payload on the shared queue. -/
theorem pending_consumed_at_most_once (s : ClientState) (cid : PyValue) (resp : Obj)
    (hflag : alookup s.flags cid = some false) :
    (sendWaitOnce cid s).1 = SendOutcome.timeout ∧
    (sendWaitOnce cid s).2.pending = s.pending ∧
    (sendWaitOnce cid s).2.flags = s.flags ∧
    (sendWaitOnce cid s).2.q = s.q ∧
    (Obj.getPy resp "id" ∉ s.pending → response_handler s resp = s) ∧
    (Obj.getPy resp "id" ∈ s.pending →
      (response_handler s resp).pending = eraseKey s.pending (Obj.getPy resp "id") ∧
      (response_handler s resp).q = s.q ++ [resp]) := by
  have hf : flagOf s cid = false := by simp [flagOf, hflag]
  refine ⟨?_, ?_, ?_, ?_, ?_, ?_⟩
  · simp [sendWaitOnce, hf]
  · simp [sendWaitOnce, hf]
  · simp [sendWaitOnce, hf]
  · simp [sendWaitOnce, hf]
  · intro h
    simp [response_handler, h]
  · intro h
    constructor <;> simp [response_handler, h]

theorem pending_consumed_at_most_once_witness :
    (sendWaitOnce (PyValue.str "x") (registerEvent (PyValue.str "x") initialState)).1
      = SendOutcome.timeout ∧
    (response_handler (registerEvent (PyValue.str "x") initialState) lateResp).q
      = (registerEvent (PyValue.str "x") initialState).q ++ [lateResp] :=
  ⟨(pending_consumed_at_most_once (registerEvent (PyValue.str "x") initialState)
      (PyValue.str "x") lateResp (by decide)).1,
   ((pending_consumed_at_most_once (registerEvent (PyValue.str "x") initialState)
      (PyValue.str "x") lateResp (by decide)).2.2.2.2.2 (by decide)).2⟩

/-- C3 (counterexample): a `send` for id `x` registers the pending entry and
then times out, yet `pending` still holds `x` afterwards (the timeout path
consumed nothing); the late response for `x` then finds that stale entry,
removes it and enqueues its payload — instead of being silently dropped
with the registry and delivery state unchanged, as claimed. -/
theorem timeout_then_late_response_counterexample :
    (sendWaitOnce (PyValue.str "x") (registerEvent (PyValue.str "x") initialState)).1
      = SendOutcome.timeout ∧
    (sendWaitOnce (PyValue.str "x") (registerEvent (PyValue.str "x") initialState)).2.pending
      = [PyValue.str "x"] ∧
    (response_handler
        (sendWaitOnce (PyValue.str "x") (registerEvent (PyValue.str "x") initialState)).2
        lateResp).pending = [] ∧
    (response_handler
        (sendWaitOnce (PyValue.str "x") (registerEvent (PyValue.str "x") initialState)).2
        lateResp).q = [lateResp] := by decide

/-- C4: once `disconnect()` has run, no automatic reconnection attempt is
ever made: `reconnect_required` is cleared (even if a reconnection was
already scheduled when `disconnect()` was called), `disconnect_called` is
set, and the guard of the reconnect loop in `Client._connect` evaluates to
false, so the background run loop terminates without reopening the
transport. -/
theorem disconnect_suppresses_reconnection (s : ClientState) :
    (disconnect s).reconnect_required = false ∧
    (disconnect s).disconnect_called = true ∧
    connectLoopStep (disconnect s) = LoopStep.exit := by
  cases h : s.socketOpen <;>
    simp [disconnect, stopTimers, connectLoopStep, h]

/-- C5: any raw message arriving while the deliberate-disconnect flag is set
is ignored entirely by `Client._on_message`: the state (registry, queue,
event flags, ledger snapshot, timers) is returned unchanged, no callback is
emitted and no exception is raised; in particular every message arriving
after `disconnect()` has run is so ignored, so no transport message alters
any `PendingRequest` result after `disconnect()` returns. -/
theorem on_message_ignored_during_disconnect (s : ClientState) (msg : Parsed) :
    (s.disconnect_called = true → on_message s msg = Except.ok (s, [])) ∧
    on_message (disconnect s) msg = Except.ok (disconnect s, []) := by
  constructor
  · intro h
    simp [on_message, h]
  · have hd : (disconnect s).disconnect_called = true := by
      cases h : s.socketOpen <;> simp [disconnect, stopTimers, h]
    simp [on_message, hd]

theorem on_message_ignored_during_disconnect_witness :
    on_message (disconnect initialState)
        (Parsed.dict [("type", PyValue.str "response"), ("id", PyValue.str "r1")])
      = Except.ok (disconnect initialState, []) :=
  (on_message_ignored_during_disconnect (disconnect initialState)
    (Parsed.dict [("type", PyValue.str "response"), ("id", PyValue.str "r1")])).1
    (by decide)

/-- C6: for a sent payload with id `cid`, starting from an empty shared
queue: if the response carrying that id is delivered while the caller is
blocked waiting, the wake-up round returns exactly that response object,
unmodified; if no response arrives within `response_timeout`, the wait
round raises `TimeoutError`. -/
theorem send_roundtrip (s : ClientState) (cid : PyValue) (resp : Obj)
    (hq : s.q = []) (hid : Obj.getPy resp "id" = cid) :
    (sendWaitOnce cid (response_handler (registerEvent cid s) resp)).1
      = SendOutcome.returned resp ∧
    (sendWaitOnce cid (registerEvent cid s)).1 = SendOutcome.timeout := by
  constructor
  · have hmem : cid ∈ (registerEvent cid s).pending := by
      by_cases h : cid ∈ s.pending <;> simp [registerEvent, h]
    simp only [response_handler, hid]
    rw [if_pos hmem]
    simp [sendWaitOnce, flagOf, registerEvent, aset, alookup, hq, hid]
  · simp [sendWaitOnce, flagOf, registerEvent, alookup]

theorem send_roundtrip_witness :
    (sendWaitOnce (PyValue.str "x")
        (response_handler (registerEvent (PyValue.str "x") initialState) respX)).1
      = SendOutcome.returned respX ∧
    (sendWaitOnce (PyValue.str "x") (registerEvent (PyValue.str "x") initialState)).1
      = SendOutcome.timeout :=
  send_roundtrip initialState (PyValue.str "x") respX (by decide) (by decide)

/-- C7: when the pong-deadline timer fires `_check_pong`, if a pong was
received since the ping was sent the flag is cleared, the timer is
cancelled and no reconnect is issued; otherwise exactly one `reconnect()`
is triggered — and one firing never issues more than one reconnect. -/
theorem check_pong_behavior (s : ClientState) :
    (s.pong_received = true →
      check_pong s = ({ s with pongTimerArmed := false, pong_received := false }, 0)) ∧
    (s.pong_received = false → (check_pong s).2 = 1) ∧
    (check_pong s).2 ≤ 1 := by
  refine ⟨?_, ?_, ?_⟩
  · intro h
    simp [check_pong, h]
  · intro h
    simp [check_pong, h]
  · by_cases h : s.pong_received <;> simp [check_pong, h]

theorem check_pong_behavior_witness :
    check_pong { initialState with pong_received := true, pongTimerArmed := true }
      = ({ initialState with pongTimerArmed := false, pong_received := false }, 0) ∧
    (check_pong initialState).2 = 1 :=
  ⟨(check_pong_behavior
      { initialState with pong_received := true, pongTimerArmed := true }).1 rfl,
   (check_pong_behavior initialState).2.1 rfl⟩

/-- C8: dispatching a dict of kind `response` whose `id` field is absent or
the empty string raises `ResponseFormatError` before anything touches the
registry — `_data_handler` returns the error with no successor state, so no
`PendingRequest` is resolved, removed or altered — and the exception
propagates out of `_on_message` the same way for any client state. -/
theorem response_missing_id_raises_format_error (s : ClientState) (d : Obj)
    (htype : Obj.get d "type" = some (PyValue.str "response"))
    (hid : Obj.get d "id" = Option.none ∨ Obj.get d "id" = some (PyValue.str "")) :
    data_handler s d = Except.error (DispatchErr.responseFormat d) ∧
    on_message { s with disconnect_called := false } (Parsed.dict d)
      = Except.error (DispatchErr.responseFormat d) := by
  have hfal : pyOptTruthy (Obj.get d "id") = false := by
    rcases hid with h | h <;> simp [h, pyOptTruthy, pyTruthy]
  have h1 : ∀ t : ClientState, data_handler t d = Except.error (DispatchErr.responseFormat d) := by
    intro t
    simp [data_handler, htype, hfal]
  refine ⟨h1 s, ?_⟩
  simp [on_message, h1]

theorem response_missing_id_raises_format_error_witness :
    data_handler { initialState with pending := [PyValue.str "other"] }
        [("type", PyValue.str "response")]
      = Except.error (DispatchErr.responseFormat [("type", PyValue.str "response")]) :=
  (response_missing_id_raises_format_error
    { initialState with pending := [PyValue.str "other"] }
    [("type", PyValue.str "response")] (by decide) (Or.inl (by decide))).1

/-- C9: dispatching a dict with type `response` and id equal to the
reserved sentinel `'ping'` is treated as a pong: `_pong_handler` sets
`pong_received` to true and nothing else changes — in particular the
pending-request registry, the event flags and the shared queue are all left
untouched and no callback is emitted. -/
theorem response_ping_sets_pong_flag (s : ClientState) (d : Obj)
    (htype : Obj.get d "type" = some (PyValue.str "response"))
    (hid : Obj.get d "id" = some (PyValue.str "ping")) :
    data_handler s d = Except.ok (pong_handler s, []) ∧
    (pong_handler s).pong_received = true ∧
    (pong_handler s).pending = s.pending ∧
    (pong_handler s).flags = s.flags ∧
    (pong_handler s).q = s.q ∧
    (pong_handler s).callers = s.callers := by
  have htr : pyOptTruthy (Obj.get d "id") = true := by
    simp [hid, pyOptTruthy, pyTruthy]
  refine ⟨?_, rfl, rfl, rfl, rfl, rfl⟩
  simp [data_handler, htype, hid, htr, pyOptTruthy, pyTruthy]

theorem response_ping_sets_pong_flag_witness :
    data_handler initialState
        [("type", PyValue.str "response"), ("id", PyValue.str "ping")]
      = Except.ok (pong_handler initialState, []) :=
  (response_ping_sets_pong_flag initialState
    [("type", PyValue.str "response"), ("id", PyValue.str "ping")]
    (by decide) (by decide)).1

/-- C10 (amended): when `Client.send` is called with a *non-empty* payload
dict, `_payload` aliases the caller's own dict, so the id injection is a
caller-visible in-place mutation: a payload lacking `'id'` gets the fresh
uuid string appended under `'id'`, every other key keeps its old value, and
a caller-supplied `'id'` leaves the payload — and hence the transmitted
message — unchanged, the supplied id preserved verbatim.  When the payload
dict is *empty*, however, Python dict truthiness makes `if payload:` false,
`_payload` is bound to the kwargs dict instead, and the caller's dict is
never mutated. -/
theorem send_payload_id_injection (p : Obj) (kw : Obj) (u : String) :
    (p = [] → selectPayload p kw = (kw, false)) ∧
    (p ≠ [] →
      selectPayload p kw = (p, true) ∧
      (hasKey p "id" = false →
        preparePayload p u = p ++ [("id", PyValue.str u)] ∧
        Obj.get (preparePayload p u) "id" = some (PyValue.str u) ∧
        ∀ k, k ≠ "id" → Obj.get (preparePayload p u) k = Obj.get p k) ∧
      (hasKey p "id" = true →
        preparePayload p u = p ∧
        Obj.get (preparePayload p u) "id" = Obj.get p "id")) := by
  constructor
  · intro h
    simp [selectPayload, h]
  · intro h
    refine ⟨by simp [selectPayload, h], ?_, ?_⟩
    · intro hid
      have he : preparePayload p u = p ++ [("id", PyValue.str u)] := by
        simp [preparePayload, hid]
      refine ⟨he, ?_, ?_⟩
      · rw [he]
        exact get_append_id p (PyValue.str u) hid
      · intro k hk
        rw [he]
        exact get_append_other p (PyValue.str u) k hk
    · intro hid
      constructor <;> simp [preparePayload, hid]

theorem send_payload_id_injection_witness :
    selectPayload [("command", PyValue.str "server_info")] []
      = ([("command", PyValue.str "server_info")], true) ∧
    preparePayload [("command", PyValue.str "server_info")] "u1"
      = [("command", PyValue.str "server_info"), ("id", PyValue.str "u1")] ∧
    preparePayload [("command", PyValue.str "ledger"), ("id", PyValue.str "7")] "u1"
      = [("command", PyValue.str "ledger"), ("id", PyValue.str "7")] ∧
    selectPayload [] [("command", PyValue.str "server_info")]
      = ([("command", PyValue.str "server_info")], false) :=
  ⟨((send_payload_id_injection [("command", PyValue.str "server_info")] [] "u1").2
      (by decide)).1,
   (((send_payload_id_injection [("command", PyValue.str "server_info")] [] "u1").2
      (by decide)).2.1 (by decide)).1,
   (((send_payload_id_injection
      [("command", PyValue.str "ledger"), ("id", PyValue.str "7")] [] "u1").2
      (by decide)).2.2 (by decide)).1,
   (send_payload_id_injection [] [("command", PyValue.str "server_info")] "u1").1
      (by decide)⟩

/-- C10 (counterexample): `send({})` — an empty payload dict, which lacks an
`'id'` key and so falls under the original claim — does *not* mutate the
caller's dictionary: the empty dict is falsy, so lines 307-310 bind
`_payload` to the kwargs dict and the uuid is injected into that dict
instead; the caller's dict is never written to.  This refutes the claimed
universal caller-visible in-place mutation at a concrete input. -/
theorem send_empty_payload_counterexample :
    hasKey [] "id" = false ∧
    selectPayload [] [("command", PyValue.str "server_info")]
      = ([("command", PyValue.str "server_info")], false) ∧
    (selectPayload [] [("command", PyValue.str "server_info")]).2 ≠ true := by decide

end Xrpl
